import Mathlib

/-!
# Verification of the mobility-dashboard core (`src/app.py`)

Shallow embedding of the data-preparation, filter/query, render-mapping and
toggle components of the dashboard, together with proofs of the specified
properties.

Modelling choices:
* A row of the loaded table (`combined_data`) is a `MobilityRecord`.
  The derived `DateTime` column is modelled as a `Nat` instant (only its
  equality and ordering are used by the code).  Coordinates are treated as
  opaque values (modelled by `Int`); the code never computes with them, it
  only copies them into drawables.  The two count columns are modelled by
  `Int`; the code only converts them to text.
* `sorted_datetimes` embeds
  `combined_data['DateTime'].sort_values().unique()`: sort the column, then
  keep the first occurrence of each value.
* `update_map` embeds the body of the Dash callback of the same name.  The
  slider value indexes the `sorted_datetimes` array with NumPy/Python
  sequence semantics: a negative index `i` with `-len <= i < 0` resolves to
  position `len + i`, and any other out-of-range index raises `IndexError`,
  modelled by `none` (`npIndex`).
* `toggle_collapse` embeds the second callback; its `n_clicks` argument is
  `None` or an integer in Python, modelled by `Option Nat`, with Python
  truthiness made explicit (`truthy`).
-/

/-- One row of `combined_data` after preprocessing: the `DateTime`,
`Source Category`, `Destination Category`, shifted coordinate and
people-moving columns read by `update_map`. -/
structure MobilityRecord where
  dateTime : Nat
  sourceCategory : String
  destinationCategory : String
  y0_shifted : Int
  x0_shifted : Int
  y1_shifted : Int
  x1_shifted : Int
  baselineCount : Int
  crisisCount : Int
deriving DecidableEq, Repr

/-- `sorted_datetimes = combined_data['DateTime'].sort_values().unique()`:
the `DateTime` column, sorted ascending, first occurrence of each value
kept. -/
def sorted_datetimes (combined_data : List MobilityRecord) : List Nat :=
  (List.insertionSort (fun a b => a ≤ b) (combined_data.map (fun row => row.dateTime))).dedup

/-- A map drawable produced by `update_map`: a `dl.Marker` with a position,
icon URL and tooltip text, or a `dl.Polyline` with its positions, color and
weight. -/
inductive Drawable where
  | marker (position : Int × Int) (iconUrl : String) (tooltip : String)
  | polyline (positions : List (Int × Int)) (color : String) (weight : Nat)
deriving DecidableEq, Repr

/-- Icon URL of the origin marker (green). -/
def greenIconUrl : String :=
  "https://raw.githubusercontent.com/pointhi/leaflet-color-markers/master/img/marker-icon-2x-green.png"

/-- Icon URL of the destination marker (red). -/
def redIconUrl : String :=
  "https://raw.githubusercontent.com/pointhi/leaflet-color-markers/master/img/marker-icon-2x-red.png"

/-- The body of the `for` loop of `update_map` for one `row` of
`filtered_data`: the origin marker, destination marker and route line
appended to `routes` for that row. -/
def row_drawables (row : MobilityRecord) : List Drawable :=
  let origin := (row.y0_shifted, row.x0_shifted)
  let destination := (row.y1_shifted, row.x1_shifted)
  let tooltip_origin := "Baseline: " ++ toString row.baselineCount
  let tooltip_destination := "Crisis: " ++ toString row.crisisCount
  let origin_marker := Drawable.marker origin greenIconUrl tooltip_origin
  let destination_marker := Drawable.marker destination redIconUrl tooltip_destination
  let route_line := Drawable.polyline [origin, destination] "blue" 1
  [origin_marker, destination_marker, route_line]

/-- The `routes` accumulation loop of `update_map`:
`routes = []; for _, row in filtered_data.iterrows(): ...; routes.extend([...])`. -/
def update_map_routes (filtered_data : List MobilityRecord) : List Drawable :=
  filtered_data.foldl (fun routes row => routes ++ row_drawables row) []

/-- The boolean-mask filter of `update_map`:
`combined_data[(DateTime == selected) & (Source Category == src) & (Destination Category == dst)]`. -/
def filtered_data (combined_data : List MobilityRecord) (selected_datetime : Nat)
    (source_category destination_category : String) : List MobilityRecord :=
  combined_data.filter (fun row =>
    row.dateTime == selected_datetime &&
    row.sourceCategory == source_category &&
    row.destinationCategory == destination_category)

/-- NumPy/Python sequence indexing with an `Int` index: a nonnegative index
`i < len` yields element `i`; a negative index `-len <= i < 0` yields
element `len + i`; anything else raises `IndexError`, modelled by `none`. -/
def npIndex {α : Type} (arr : List α) (i : Int) : Option α :=
  if 0 ≤ i then
    arr[i.toNat]?
  else if 0 ≤ (arr.length : Int) + i then
    arr[((arr.length : Int) + i).toNat]?
  else
    none

/-- The `update_map` callback: resolve the slider value against
`sorted_datetimes`, filter `combined_data` by the three equality
predicates, and build the route drawables.  `none` models the `IndexError`
escaping the callback. -/
def update_map (combined_data : List MobilityRecord) (datetime_index : Int)
    (source_category destination_category : String) : Option (List Drawable) :=
  (npIndex (sorted_datetimes combined_data) datetime_index).map
    (fun selected_datetime =>
      update_map_routes
        (filtered_data combined_data selected_datetime source_category destination_category))

/-- Python truthiness of the `n_clicks` argument (`None` or an integer). -/
def truthy (n : Option Nat) : Bool :=
  match n with
  | none => false
  | some k => k != 0

/-- The `toggle_collapse` callback: `if n: return not is_open; return is_open`. -/
def toggle_collapse (n : Option Nat) (is_open : Bool) : Bool :=
  if truthy n then !is_open else is_open

-- Helper lemmas

/-- The accumulation loop, started from `acc`, appends one
`row_drawables` block per row. -/
theorem foldl_extend_eq_append (rows : List MobilityRecord) (acc : List Drawable) :
    rows.foldl (fun routes row => routes ++ row_drawables row) acc
      = acc ++ rows.flatMap row_drawables := by
  induction rows generalizing acc with
  | nil => simp
  | cons r rs ih => simp [List.foldl_cons, ih, List.append_assoc]

/-- `update_map_routes` emits the concatenation of the per-row blocks. -/
theorem update_map_routes_eq_flatMap (rows : List MobilityRecord) :
    update_map_routes rows = rows.flatMap row_drawables := by
  simpa using foldl_extend_eq_append rows []

/-- The explicit global state of the running app: the two module-level
values read by the callbacks, built once at startup. -/
structure AppState where
  combined_data : List MobilityRecord
  sorted_datetimes : List Nat
deriving DecidableEq, Repr

/-- Startup: load the table and derive `sorted_datetimes` from it. -/
def load_state (table : List MobilityRecord) : AppState :=
  { combined_data := table, sorted_datetimes := sorted_datetimes table }

/-- `update_map` as a state transformer over the module-level globals: the
callback body reads `sorted_datetimes` and `combined_data` and performs no
assignment, so the resulting state is returned alongside the output. -/
def update_map_st (state : AppState) (datetime_index : Int)
    (source_category destination_category : String) :
    Option (List Drawable) × AppState :=
  ((npIndex state.sorted_datetimes datetime_index).map
      (fun selected_datetime =>
        update_map_routes
          (filtered_data state.combined_data selected_datetime
            source_category destination_category)),
   state)

-- Concrete data used by the witnesses

/-- A concrete mobility record (timestamp 5, Work → Home). -/
def sampleRecord : MobilityRecord :=
  { dateTime := 5, sourceCategory := "Work", destinationCategory := "Home",
    y0_shifted := 12, x0_shifted := 77, y1_shifted := 13, x1_shifted := 78,
    baselineCount := 120, crisisCount := 45 }

/-- A second concrete mobility record (timestamp 3, Home → Work). -/
def sampleRecord2 : MobilityRecord :=
  { dateTime := 3, sourceCategory := "Home", destinationCategory := "Work",
    y0_shifted := 1, x0_shifted := 2, y1_shifted := 3, x1_shifted := 4,
    baselineCount := 7, crisisCount := 9 }

/-- A concrete two-row table. -/
def sampleTable : List MobilityRecord := [sampleRecord, sampleRecord2]

/-- Length of one per-row block. -/
theorem row_drawables_length (row : MobilityRecord) : (row_drawables row).length = 3 := rfl

/-- The block of three drawables of row `i` sits at offset `3 * i` of the
emitted route list. -/
theorem update_map_routes_block (rows : List MobilityRecord) (i : Nat)
    (h : i < rows.length) :
    ((update_map_routes rows).drop (3 * i)).take 3 = row_drawables (rows.get ⟨i, h⟩) := by
  rw [update_map_routes_eq_flatMap]
  induction rows generalizing i with
  | nil => cases h
  | cons r rs ih =>
    cases i with
    | zero =>
      simp only [List.flatMap_cons, Nat.mul_zero, List.drop_zero]
      exact List.take_left' (row_drawables_length r)
    | succ j =>
      have h3 : 3 * (j + 1) = (row_drawables r).length + 3 * j := by
        rw [row_drawables_length]; ring
      simp only [List.flatMap_cons, h3, List.drop_append]
      exact ih j (Nat.lt_of_succ_lt_succ h)

/-- Reading one element of a block through `take`/`drop`. -/
theorem getElem?_of_block {L : List Drawable} {i : Nat} {block : List Drawable}
    (hb : (L.drop (3 * i)).take 3 = block) (k : Nat) (hk : k < 3) :
    L[3 * i + k]? = block[k]? := by
  rw [← hb, List.getElem?_take_of_lt hk, List.getElem?_drop]

-- Claim theorems

/-- C1: for every valid time index (resolved through `sorted_datetimes`)
and every pair of category strings, a record is in the filter result iff it
is a table record whose `DateTime`, `Source Category` and
`Destination Category` all equal the three selectors (soundness and
completeness of the conjunction of equality predicates). -/
theorem filtered_data_sound_complete (combined_data : List MobilityRecord)
    (datetime_index : Nat) (selected_datetime : Nat)
    (_hidx : (sorted_datetimes combined_data)[datetime_index]? = some selected_datetime)
    (source_category destination_category : String) (row : MobilityRecord) :
    row ∈ filtered_data combined_data selected_datetime
        source_category destination_category ↔
      row ∈ combined_data ∧
      row.dateTime = selected_datetime ∧
      row.sourceCategory = source_category ∧
      row.destinationCategory = destination_category := by
  simp [filtered_data, List.mem_filter, and_assoc]

/-- Witness for C1 at a concrete table, index and selectors. -/
theorem filtered_data_sound_complete_witness :
    (sorted_datetimes sampleTable)[0]? = some 3 ∧
    (sampleRecord2 ∈ filtered_data sampleTable 3 "Home" "Work" ↔
      sampleRecord2 ∈ sampleTable ∧
      sampleRecord2.dateTime = 3 ∧
      sampleRecord2.sourceCategory = "Home" ∧
      sampleRecord2.destinationCategory = "Work") :=
  ⟨by decide,
   filtered_data_sound_complete sampleTable 0 3 (by decide) "Home" "Work" sampleRecord2⟩

/-- C2: the route list has exactly `3 * len(records)` drawables and, for
each record in input order, its three drawables (origin marker,
destination marker, route line — the `row_drawables` block) appear
consecutively at offset `3 * i`, with no aggregation or deduplication. -/
theorem update_map_routes_three_per_record (rows : List MobilityRecord) :
    (update_map_routes rows).length = 3 * rows.length ∧
    ∀ (i : Nat) (h : i < rows.length),
      ((update_map_routes rows).drop (3 * i)).take 3 = row_drawables (rows.get ⟨i, h⟩) := by
  refine ⟨?_, fun i h => update_map_routes_block rows i h⟩
  rw [update_map_routes_eq_flatMap]
  induction rows with
  | nil => rfl
  | cons r rs ih =>
    simp only [List.flatMap_cons, List.length_append, row_drawables_length, ih,
      List.length_cons]
    ring

/-- Witness for C2 at a concrete two-record table. -/
theorem update_map_routes_three_per_record_witness :
    (update_map_routes sampleTable).length = 3 * sampleTable.length ∧
    ((update_map_routes sampleTable).drop (3 * 1)).take 3
      = row_drawables (sampleTable.get ⟨1, by decide⟩) :=
  ⟨(update_map_routes_three_per_record sampleTable).1,
   (update_map_routes_three_per_record sampleTable).2 1 (by decide)⟩

/-- C6: for each record, the emitted origin marker carries the green icon
and the label `"Baseline: " ++ baselineCount`, the destination marker
carries the red icon and the label `"Crisis: " ++ crisisCount`, and the
route line connects the origin marker's position to the destination
marker's position. -/
theorem update_map_routes_labels (rows : List MobilityRecord) (i : Nat)
    (h : i < rows.length) :
    ∃ origin destination : Int × Int,
      (update_map_routes rows)[3 * i]?
          = some (Drawable.marker origin greenIconUrl
              ("Baseline: " ++ toString (rows.get ⟨i, h⟩).baselineCount)) ∧
      (update_map_routes rows)[3 * i + 1]?
          = some (Drawable.marker destination redIconUrl
              ("Crisis: " ++ toString (rows.get ⟨i, h⟩).crisisCount)) ∧
      (update_map_routes rows)[3 * i + 2]?
          = some (Drawable.polyline [origin, destination] "blue" 1) := by
  have hb := update_map_routes_block rows i h
  refine ⟨((rows.get ⟨i, h⟩).y0_shifted, (rows.get ⟨i, h⟩).x0_shifted),
    ((rows.get ⟨i, h⟩).y1_shifted, (rows.get ⟨i, h⟩).x1_shifted), ?_, ?_, ?_⟩
  · have := getElem?_of_block hb 0 (by omega)
    simpa [row_drawables] using this
  · have := getElem?_of_block hb 1 (by omega)
    simpa [row_drawables] using this
  · have := getElem?_of_block hb 2 (by omega)
    simpa [row_drawables] using this

/-- Witness for C6 at a concrete table and record index. -/
theorem update_map_routes_labels_witness :
    0 < sampleTable.length ∧
    (∃ origin destination : Int × Int,
      (update_map_routes sampleTable)[3 * 0]?
          = some (Drawable.marker origin greenIconUrl
              ("Baseline: " ++ toString (sampleTable.get ⟨0, by decide⟩).baselineCount)) ∧
      (update_map_routes sampleTable)[3 * 0 + 1]?
          = some (Drawable.marker destination redIconUrl
              ("Crisis: " ++ toString (sampleTable.get ⟨0, by decide⟩).crisisCount)) ∧
      (update_map_routes sampleTable)[3 * 0 + 2]?
          = some (Drawable.polyline [origin, destination] "blue" 1)) :=
  ⟨by decide, update_map_routes_labels sampleTable 0 (by decide)⟩

/-- C7: the filter result is a subsequence of the table — returned records
keep their relative table order, with no sort or reordering applied. -/
theorem filtered_data_sublist (combined_data : List MobilityRecord)
    (selected_datetime : Nat) (source_category destination_category : String) :
    (filtered_data combined_data selected_datetime
        source_category destination_category).Sublist combined_data :=
  List.filter_sublist combined_data

/-- C8: `toggle_collapse` flips the state exactly when `n` is truthy: with
a truthy `n` it returns `not is_open` and applying it twice restores
`is_open` (involution); with a falsy `n` it is the identity. -/
theorem toggle_collapse_spec (n : Option Nat) (is_open : Bool) :
    (truthy n = true →
      toggle_collapse n is_open = !is_open ∧
      toggle_collapse n (toggle_collapse n is_open) = is_open) ∧
    (truthy n = false → toggle_collapse n is_open = is_open) := by
  cases hn : truthy n <;> simp [toggle_collapse, hn]

/-- Witness for C8 at concrete click counts and states. -/
theorem toggle_collapse_spec_witness :
    truthy (some 1) = true ∧
    (toggle_collapse (some 1) false = !false ∧
      toggle_collapse (some 1) (toggle_collapse (some 1) false) = false) ∧
    truthy none = false ∧
    toggle_collapse none true = true :=
  ⟨by decide, (toggle_collapse_spec (some 1) false).1 (by decide),
   by decide, (toggle_collapse_spec none true).2 (by decide)⟩

/-- C3: `sorted_datetimes` is strictly ascending (hence sorted with no
duplicates), contains exactly the timestamps occurring in the table, and
has exactly as many elements as there are distinct timestamps. -/
theorem sorted_datetimes_spec (combined_data : List MobilityRecord) :
    (sorted_datetimes combined_data).Sorted (· < ·) ∧
    (∀ t : Nat, t ∈ sorted_datetimes combined_data ↔
        ∃ row ∈ combined_data, row.dateTime = t) ∧
    (sorted_datetimes combined_data).length
      = (combined_data.map (fun row => row.dateTime)).dedup.length := by
  have hperm : List.Perm
      (List.insertionSort (fun a b => a ≤ b)
        (combined_data.map (fun row => row.dateTime)))
      (combined_data.map (fun row => row.dateTime)) :=
    List.perm_insertionSort _ _
  refine ⟨?_, ?_, ?_⟩
  · have hs : (List.insertionSort (fun a b => a ≤ b)
        (combined_data.map (fun row => row.dateTime))).Sorted (fun a b => a ≤ b) :=
      List.sorted_insertionSort _ _
    have hsd : (sorted_datetimes combined_data).Sorted (fun a b => a ≤ b) :=
      List.Pairwise.sublist (List.dedup_sublist _) hs
    exact hsd.lt_of_le (List.nodup_dedup _)
  · intro t
    rw [sorted_datetimes, List.mem_dedup, hperm.mem_iff, List.mem_map]
  · exact hperm.dedup.length_eq

/-- C4 counterexample: the index `-1` is outside
`0 ≤ index < len(timeIndex)` for a concrete table, yet `update_map`
returns a result instead of signalling an index error. -/
theorem update_map_out_of_range_counterexample :
    ¬ (0 ≤ (-1 : Int) ∧
        (-1 : Int) < ((sorted_datetimes sampleTable).length : Int)) ∧
    update_map sampleTable (-1) "Work" "Home" ≠ none := by
  exact ⟨by decide, by decide⟩

/-- C4 amended: an index at or above `len(timeIndex)`, or strictly below
`-len(timeIndex)`, makes `update_map` signal an index-out-of-range error
rather than return a result; indices in `[-len(timeIndex), 0)` are instead
resolved by wrap-around. -/
theorem update_map_index_error (combined_data : List MobilityRecord)
    (datetime_index : Int) (source_category destination_category : String)
    (h : datetime_index < -((sorted_datetimes combined_data).length : Int) ∨
         ((sorted_datetimes combined_data).length : Int) ≤ datetime_index) :
    update_map combined_data datetime_index
      source_category destination_category = none := by
  unfold update_map npIndex
  rcases h with h | h
  · have h0 : ¬ (0 ≤ datetime_index) := by omega
    have h1 : ¬ (0 ≤ ((sorted_datetimes combined_data).length : Int)
        + datetime_index) := by omega
    simp [h0, h1]
  · have h0 : (0:Int) ≤ datetime_index := by omega
    have h2 : (sorted_datetimes combined_data).length ≤ datetime_index.toNat := by
      omega
    simp [h0, List.getElem?_eq_none h2]

/-- Witness for the amended C4 at a concrete table and index. -/
theorem update_map_index_error_witness :
    ((sorted_datetimes sampleTable).length : Int) ≤ 99 ∧
    update_map sampleTable 99 "Work" "Home" = none :=
  ⟨by decide,
   update_map_index_error sampleTable 99 "Work" "Home" (Or.inr (by decide))⟩

/-- C5: a negative index in `[-len(timeIndex), 0)` does not signal an
error: it behaves exactly like the valid index `len(timeIndex) + index`
(wrap-around), and the result is not `none`. -/
theorem update_map_negative_index_wraps (combined_data : List MobilityRecord)
    (datetime_index : Int) (source_category destination_category : String)
    (h₁ : -((sorted_datetimes combined_data).length : Int) ≤ datetime_index)
    (h₂ : datetime_index < 0) :
    update_map combined_data datetime_index source_category destination_category
        = update_map combined_data
            (((sorted_datetimes combined_data).length : Int) + datetime_index)
            source_category destination_category ∧
    update_map combined_data datetime_index
      source_category destination_category ≠ none := by
  have h0 : ¬ (0 ≤ datetime_index) := by omega
  have h1 : 0 ≤ ((sorted_datetimes combined_data).length : Int) + datetime_index := by
    omega
  constructor
  · unfold update_map npIndex
    simp [h0, h1]
  · have hlt : (((sorted_datetimes combined_data).length : Int)
        + datetime_index).toNat < (sorted_datetimes combined_data).length := by
      omega
    unfold update_map npIndex
    simp [h0, h1, List.getElem?_eq_getElem hlt]

/-- Witness for C5 at a concrete table and the index `-1`. -/
theorem update_map_negative_index_wraps_witness :
    -((sorted_datetimes sampleTable).length : Int) ≤ -1 ∧ (-1 : Int) < 0 ∧
    (update_map sampleTable (-1) "Work" "Home"
        = update_map sampleTable
            (((sorted_datetimes sampleTable).length : Int) + -1) "Work" "Home" ∧
     update_map sampleTable (-1) "Work" "Home" ≠ none) :=
  ⟨by decide, by decide,
   update_map_negative_index_wraps sampleTable (-1) "Work" "Home"
     (by decide) (by decide)⟩

/-- C9: a valid index whose timestamp/category combination matches zero
records is not an error: `update_map` returns `some []`, the empty
drawable sequence. -/
theorem update_map_empty_result (combined_data : List MobilityRecord)
    (datetime_index : Nat) (selected_datetime : Nat)
    (hidx : (sorted_datetimes combined_data)[datetime_index]? = some selected_datetime)
    (source_category destination_category : String)
    (hempty : filtered_data combined_data selected_datetime
        source_category destination_category = []) :
    update_map combined_data (datetime_index : Int)
        source_category destination_category = some [] := by
  unfold update_map npIndex
  have h0 : (0:Int) ≤ (datetime_index : Int) := Int.natCast_nonneg _
  simp [h0, hidx, hempty, update_map_routes]

/-- Witness for C9 at a concrete table and an unmatched selector pair. -/
theorem update_map_empty_result_witness :
    (sorted_datetimes sampleTable)[0]? = some 3 ∧
    filtered_data sampleTable 3 "Work" "Work" = [] ∧
    update_map sampleTable ((0 : Nat) : Int) "Work" "Work" = some [] :=
  ⟨by decide, by decide,
   update_map_empty_result sampleTable 0 3 (by decide) "Work" "Work" (by decide)⟩

/-- C10: `update_map` is a pure, deterministic function of the selectors
and the immutable globals: threading the global state through the callback
leaves it unchanged, a repeated invocation with identical inputs returns
an identical drawable sequence, and the state-carrying callback agrees
with the direct function of the loaded table. -/
theorem update_map_st_pure (state : AppState) (datetime_index : Int)
    (source_category destination_category : String) :
    (update_map_st state datetime_index
        source_category destination_category).2 = state ∧
    (update_map_st
        ((update_map_st state datetime_index
            source_category destination_category).2)
        datetime_index source_category destination_category).1
      = (update_map_st state datetime_index
          source_category destination_category).1 ∧
    (update_map_st (load_state state.combined_data) datetime_index
        source_category destination_category).1
      = update_map state.combined_data datetime_index
          source_category destination_category :=
  ⟨rfl, rfl, rfl⟩
